import Mathlib

/-!
Shallow embedding of the core of `proj2_nps.py` (national-site scraper with a
read-through persistent cache): the cache file layer (`open_cache`,
`save_cache`), the request-key builder (`construct_unique_key`), the three
cached fetchers (`build_state_url_dict`, `get_site_instance`,
`get_nearby_places`), the uncached state-page pipeline (`get_sites_for_state`)
and the nearby-place display formatting (`print_nearby_places` loop body).

Modelling conventions:
* A Python `dict` is an insertion-ordered association list `Mapping α`
  (`CACHE_DICT[k] = v` updates in place when the key exists, else appends).
* The cache file on disk is a `CacheFile α`: the sequence of top-level JSON
  documents its text concatenates.  `json.loads` on the file text succeeds
  exactly when the text is a single document, hence `json_loads` below.
  `save_cache` opens the file with mode `"a"` (append) in the source, so it
  appends one more document.
* Network I/O is passed in as explicit producer functions; each fetcher
  result records how many producer calls (`fetchCalls`) and `save_cache`
  calls (`saveCalls`) the run performed.
* HTML parsing (`BeautifulSoup`) is modelled by storing the already-parsed
  page structure as the cached payload; `response.text` and its parse carry
  the same information.  `str()` applied to the two integer parameter values
  `10` of the MapQuest request is modelled by the string literal "10".
* `secrets.API_key` (a file not in the repository) is an explicit argument.
-/

/-- A Python dict with `String` keys, as an insertion-ordered association
list. -/
abbrev Mapping (α : Type) : Type := List (String × α)

/-- `k in d.keys()` / `d[k]` read access: first (and only) binding of `k`. -/
def dictLookup {α : Type} : Mapping α → String → Option α
  | [], _ => none
  | p :: rest, k => if p.1 = k then some p.2 else dictLookup rest k

/-- `k in d.keys()` as a Bool. -/
def containsKey {α : Type} (d : Mapping α) (k : String) : Bool :=
  (dictLookup d k).isSome

/-- `d[k] = v`: overwrite in place when present, append when absent. -/
def dictInsert {α : Type} (d : Mapping α) (k : String) (v : α) : Mapping α :=
  if containsKey d k then
    d.map (fun p => if p.1 = k then (k, v) else p)
  else
    d ++ [(k, v)]

/-- Contents of the cache file: the sequence of top-level JSON documents the
file's text concatenates (empty list = empty file). -/
abbrev CacheFile (α : Type) : Type := List α

/-- `save_cache` (src lines 70-85): `json.dumps` the dict and write it to the
file opened with mode `"a"` — appending one more top-level document after
whatever the file already held. -/
def save_cache {α : Type} (cache_dict : α) (file : CacheFile α) : CacheFile α :=
  file ++ [cache_dict]

/-- `json.loads` applied to the file's text: succeeds exactly when the text
is a single top-level document; an empty file or a concatenation of two or
more documents raises (here: `none`). -/
def json_loads {α : Type} : CacheFile α → Option α
  | [d] => some d
  | _ => none

/-- `open_cache` (src lines 48-68): try to read and parse the cache file;
`none` as the read result models a missing/unreadable file.  The bare
`except:` turns every failure into the empty dict. -/
def open_cache {α : Type} (readResult : Option (CacheFile (Mapping α))) :
    Mapping α :=
  match readResult with
  | none => []
  | some f =>
    match json_loads f with
    | some d => d
    | none => []

/-- `construct_unique_key` (src lines 87-91): start from the base URL and
append `_k_v` for each parameter in dict iteration (= insertion) order. -/
def construct_unique_key (baseurl : String)
    (params : List (String × String)) : String :=
  params.foldl (fun acc p => acc ++ "_" ++ p.1 ++ "_" ++ p.2) baseurl

-- Basic dictionary lemmas ----------------------------------------------------

theorem dictLookup_nil {α : Type} (k : String) :
    dictLookup ([] : Mapping α) k = none := rfl

theorem dictLookup_append_of_none {α : Type} (d l : Mapping α) (k : String)
    (h : dictLookup d k = none) : dictLookup (d ++ l) k = dictLookup l k := by
  induction d with
  | nil => simp
  | cons p rest ih =>
    simp only [List.cons_append, dictLookup] at h ⊢
    by_cases hp : p.1 = k
    · rw [if_pos hp] at h
      simp at h
    · rw [if_neg hp] at h ⊢
      exact ih h

theorem dictLookup_map_update {α : Type} (d : Mapping α) (k : String) (v : α)
    (h : containsKey d k = true) :
    dictLookup (d.map (fun p => if p.1 = k then (k, v) else p)) k = some v := by
  induction d with
  | nil => simp [containsKey, dictLookup] at h
  | cons p rest ih =>
    by_cases hp : p.1 = k
    · simp [dictLookup, hp]
    · have h' : containsKey rest k = true := by
        simpa [containsKey, dictLookup, hp] using h
      simp only [List.map_cons, dictLookup, if_neg hp]
      exact ih h'

theorem dictLookup_insert_self {α : Type} (d : Mapping α) (k : String)
    (v : α) : dictLookup (dictInsert d k v) k = some v := by
  unfold dictInsert
  by_cases h : containsKey d k = true
  · rw [if_pos h]
    exact dictLookup_map_update d k v h
  · rw [if_neg h]
    have hn : dictLookup d k = none := by
      simp only [containsKey, Option.isSome] at h
      cases hd : dictLookup d k with
      | none => rfl
      | some w => rw [hd] at h; simp at h
    rw [dictLookup_append_of_none d _ k hn]
    simp [dictLookup]

theorem dictLookup_map_update_ne {α : Type} (d : Mapping α) (k u : String)
    (v : α) (h : u ≠ k) :
    dictLookup (d.map (fun p => if p.1 = k then (k, v) else p)) u =
      dictLookup d u := by
  induction d with
  | nil => simp
  | cons p rest ih =>
    by_cases hp : p.1 = k
    · simp only [List.map_cons, if_pos hp, dictLookup]
      rw [if_neg (fun hu => h hu.symm), if_neg (fun hu => h (hp ▸ hu).symm)]
      · exact ih
    · simp only [List.map_cons, if_neg hp, dictLookup]
      by_cases hu : p.1 = u
      · rw [if_pos hu, if_pos hu]
      · rw [if_neg hu, if_neg hu]
        exact ih

theorem dictLookup_append_single_ne {α : Type} (d : Mapping α) (k u : String)
    (v : α) (h : u ≠ k) :
    dictLookup (d ++ [(k, v)]) u = dictLookup d u := by
  induction d with
  | nil => simp [dictLookup, Ne.symm h]
  | cons p rest ih =>
    by_cases hu : p.1 = u
    · simp [dictLookup, hu]
    · simp only [List.cons_append, dictLookup, if_neg hu]
      exact ih

theorem dictLookup_insert_ne {α : Type} (d : Mapping α) (k u : String)
    (v : α) (h : u ≠ k) :
    dictLookup (dictInsert d k v) u = dictLookup d u := by
  unfold dictInsert
  by_cases hc : containsKey d k = true
  · rw [if_pos hc]
    exact dictLookup_map_update_ne d k u v h
  · rw [if_neg hc]
    exact dictLookup_append_single_ne d k u v h

-- Domain model and fetchers --------------------------------------------------

/-- Python `str.strip()` on the character list: drop leading and trailing
whitespace. -/
def stripChars (l : List Char) : List Char :=
  ((l.dropWhile Char.isWhitespace).reverse.dropWhile Char.isWhitespace).reverse

/-- Python `str.strip()`. -/
def pyStrip (s : String) : String := ⟨stripChars s.data⟩

/-- Python `str.lower()`. -/
def pyLower (s : String) : String := ⟨s.data.map Char.toLower⟩

/-- `NationalSite` (src lines 17-46). -/
structure NationalSite where
  category : String
  name : String
  address : String
  zipcode : String
  phone : String
deriving DecidableEq, Repr

/-- `NationalSite.info` (src lines 45-46):
`f"{self.name} ({self.category}): {self.address} {self.zipcode}"`. -/
def NationalSite.info (s : NationalSite) : String :=
  s.name ++ " (" ++ s.category ++ "): " ++ s.address ++ " " ++ s.zipcode

/-- The fixed MapQuest endpoint (src line 202). -/
def mapquest_baseurl : String := "http://www.mapquestapi.com/search/v2/radius"

/-- The `params` dict of `get_nearby_places` (src lines 204-211), in its
literal insertion order; the integer values `10` appear through `str()`. -/
def nearby_params (apiKey zipcode : String) : List (String × String) :=
  [("key", apiKey), ("origin", zipcode), ("radius", "10"),
   ("maxMatches", "10"), ("ambiguities", "ignore"), ("outFormat", "json")]

/-- Result of one `get_nearby_places` run: the returned response, the updated
`CACHE_DICT`, the updated cache file, and how many network requests and
`save_cache` calls were made. -/
structure FetchOut (α : Type) where
  response : α
  cache : Mapping α
  file : CacheFile (Mapping α)
  fetchCalls : Nat
  saveCalls : Nat
deriving Repr

/-- `get_nearby_places` (src lines 189-222): build the MapQuest params from
the site's zipcode, compute the unique key; on a hit return the cached
response, on a miss call the producer (`requests.get(...).json()`), store the
response in `CACHE_DICT` and `save_cache` it. -/
def get_nearby_places {α : Type} (apiKey : String)
    (producer : String → List (String × String) → α)
    (site : NationalSite) (cache : Mapping α)
    (file : CacheFile (Mapping α)) : FetchOut α :=
  let baseurl := mapquest_baseurl
  let params := nearby_params apiKey site.zipcode
  let uniq_key := construct_unique_key baseurl params
  match dictLookup cache uniq_key with
  | some v => ⟨v, cache, file, 0, 0⟩
  | none =>
    let response := producer baseurl params
    let cache2 := dictInsert cache uniq_key response
    ⟨response, cache2, save_cache cache2 file, 1, 1⟩

/-- A parsed national-site detail page: the fixed labeled elements that
`get_site_instance` extracts (src lines 154-158). -/
structure DetailPage where
  heroTitle : String
  heroDesignation : String
  addressLocality : String
  addressRegion : String
  postalCode : String
  telephone : String
deriving DecidableEq, Repr

/-- The extraction part of `get_site_instance` (src lines 154-160): each
field is `.text.strip()`-ed; the address joins locality and region with
`", "`. -/
def site_from_page (p : DetailPage) : NationalSite :=
  { category := pyStrip p.heroDesignation
    name := pyStrip p.heroTitle
    address := pyStrip p.addressLocality ++ ", " ++ pyStrip p.addressRegion
    zipcode := pyStrip p.postalCode
    phone := pyStrip p.telephone }

/-- Result of one `get_site_instance` run. -/
structure SiteFetchOut where
  site : NationalSite
  cache : Mapping DetailPage
  file : CacheFile (Mapping DetailPage)
  fetchCalls : Nat
  saveCalls : Nat
deriving Repr

/-- `get_site_instance` (src lines 131-161): on a hit parse the cached page
text; on a miss `requests.get` the page, store its text in `CACHE_DICT`,
`save_cache`, and parse.  Either way extract the five fields. -/
def get_site_instance (webGet : String → DetailPage) (site_url : String)
    (cache : Mapping DetailPage) (file : CacheFile (Mapping DetailPage)) :
    SiteFetchOut :=
  match dictLookup cache site_url with
  | some page => ⟨site_from_page page, cache, file, 0, 0⟩
  | none =>
    let page := webGet site_url
    let cache2 := dictInsert cache site_url page
    ⟨site_from_page page, cache2, save_cache cache2 file, 1, 1⟩

/-- A parsed state page: the relative detail links of the
`ul#list_parks > li > h3 > a` entries, in document order (src lines
180-183). -/
structure StatePage where
  parkHrefs : List String
deriving DecidableEq, Repr

/-- Absolute detail URL built from a relative link (src line 184). -/
def detail_site_url (href : String) : String :=
  "https://www.nps.gov" ++ href ++ "index.htm"

/-- Result of one `get_sites_for_state` run.  `fetchedUrls` lists every URL
that went to the network (not served from cache), in order. -/
structure SitesOut where
  sites : List NationalSite
  cache : Mapping DetailPage
  file : CacheFile (Mapping DetailPage)
  fetchedUrls : List String
  saveCalls : Nat
deriving Repr

/-- One iteration of the loop in `get_sites_for_state` (src lines 182-185):
build the absolute detail URL and run `get_site_instance` on it. -/
def sites_step (webGet : String → DetailPage) (acc : SitesOut)
    (href : String) : SitesOut :=
  let site_url := detail_site_url href
  let r := get_site_instance webGet site_url acc.cache acc.file
  ⟨acc.sites ++ [r.site], r.cache, r.file,
   acc.fetchedUrls ++ (if r.fetchCalls = 0 then [] else [site_url]),
   acc.saveCalls + r.saveCalls⟩

/-- `get_sites_for_state` (src lines 163-186): fetch the state page directly
with `requests.get` — no cache lookup and no cache store for this URL — then
run `get_site_instance` over each listed park link. -/
def get_sites_for_state (webGetState : String → StatePage)
    (webGet : String → DetailPage) (state_url : String)
    (cache : Mapping DetailPage) (file : CacheFile (Mapping DetailPage)) :
    SitesOut :=
  let page := webGetState state_url
  page.parkHrefs.foldl (sites_step webGet) ⟨[], cache, file, [state_url], 0⟩

/-- A parsed index page: the dropdown entries, each a (list-item text, link
href) pair (src lines 119-124). -/
structure IndexPage where
  stateItems : List (String × String)
deriving DecidableEq, Repr

/-- The parsing part of `build_state_url_dict` (src lines 118-129): for each
entry, key = stripped lowercased text, value = domain-prefixed href. -/
def parse_state_dict (p : IndexPage) : Mapping String :=
  p.stateItems.foldl
    (fun d item =>
      dictInsert d (pyLower (pyStrip item.1))
        ("https://www.nps.gov" ++ item.2)) []

/-- Result of one `build_state_url_dict` run. -/
structure StateDictOut where
  stateUrls : Mapping String
  cache : Mapping IndexPage
  file : CacheFile (Mapping IndexPage)
  fetchCalls : Nat
  saveCalls : Nat
deriving Repr

/-- `build_state_url_dict` (src lines 94-129): the index page fetch is routed
through the cache under the fixed base URL, then the page is parsed into the
state dictionary. -/
def build_state_url_dict (webGet : String → IndexPage)
    (cache : Mapping IndexPage) (file : CacheFile (Mapping IndexPage)) :
    StateDictOut :=
  let base_url := "https://www.nps.gov/index.htm"
  match dictLookup cache base_url with
  | some page => ⟨parse_state_dict page, cache, file, 0, 0⟩
  | none =>
    let page := webGet base_url
    let cache2 := dictInsert cache base_url page
    ⟨parse_state_dict page, cache2, save_cache cache2 file, 1, 1⟩

/-- The `fields` sub-object of one MapQuest search result, restricted to the
four keys `print_nearby_places` reads (src lines 245-249). -/
structure PlaceFields where
  name : String
  address : String
  city : String
  group_sic_code_name_ext : String
deriving DecidableEq, Repr

/-- The display columns computed by the loop body of `print_nearby_places`
(src lines 245-255): `(name, category, address, city)` after the
empty-string fallbacks. -/
def display_nearby_place (f : PlaceFields) : String × String × String × String :=
  let name := f.name
  let address := f.address
  let city := f.city
  let category := f.group_sic_code_name_ext
  let category := if category = "" then "no category" else category
  let address := if address = "" then "no address" else address
  let city := if city = "" then "no city" else city
  (name, category, address, city)

/-- The printed line for one nearby place (src line 256):
`f"- {name} ({category}): {address}, {city}"`. -/
def format_nearby_place (f : PlaceFields) : String :=
  let v := display_nearby_place f
  "- " ++ v.1 ++ " (" ++ v.2.1 ++ "): " ++ v.2.2.1 ++ ", " ++ v.2.2.2

-- Concrete fixtures and reference helpers ------------------------------------

/-- The `_k_v` suffix `construct_unique_key` appends, as a standalone
function of the ordered parameter list. -/
def key_suffix : List (String × String) → String
  | [] => ""
  | p :: ps => "_" ++ p.1 ++ "_" ++ p.2 ++ key_suffix ps

/-- Canned Isle Royale detail page of the end-to-end scenario. -/
def isle_royale_detail : DetailPage :=
  ⟨"Isle Royale", "National Park", "Houghton", "MI", "49931", "906-482-0984"⟩

/-- Canned state page with a single park entry linking to `/isle-royale/`. -/
def canned_state_page : StatePage := ⟨["/isle-royale/"]⟩

/-- A sample national site used to instantiate hypotheses concretely. -/
def sample_site : NationalSite :=
  ⟨"National Park", "Isle Royale", "Houghton, MI", "49931", "906-482-0984"⟩

/-- A sample index page. -/
def sample_index_page : IndexPage :=
  ⟨[("Michigan", "/state/mi/index.htm")]⟩

-- Lemmas about the pipeline fold ---------------------------------------------

theorem get_site_instance_cache_lookup_ne (wd : String → DetailPage)
    (site_url : String) (cache : Mapping DetailPage)
    (file : CacheFile (Mapping DetailPage)) (u : String) (h : u ≠ site_url) :
    dictLookup (get_site_instance wd site_url cache file).cache u =
      dictLookup cache u := by
  cases hd : dictLookup cache site_url with
  | some page => simp [get_site_instance, hd]
  | none =>
    simp [get_site_instance, hd,
      dictLookup_insert_ne cache site_url u (wd site_url) h]

theorem sites_foldl_fetched_mono (wd : String → DetailPage)
    (hrefs : List String) (acc : SitesOut) (x : String)
    (hx : x ∈ acc.fetchedUrls) :
    x ∈ (hrefs.foldl (sites_step wd) acc).fetchedUrls := by
  induction hrefs generalizing acc with
  | nil => exact hx
  | cons hd tl ih => exact ih (sites_step wd acc hd) (List.mem_append_left _ hx)

theorem sites_foldl_lookup_ne (wd : String → DetailPage)
    (hrefs : List String) (acc : SitesOut) (u : String)
    (h : ∀ href ∈ hrefs, u ≠ detail_site_url href) :
    dictLookup (hrefs.foldl (sites_step wd) acc).cache u =
      dictLookup acc.cache u := by
  induction hrefs generalizing acc with
  | nil => rfl
  | cons hd tl ih =>
    rw [List.foldl_cons,
      ih (sites_step wd acc hd) (fun x hx => h x (List.mem_cons_of_mem _ hx))]
    exact get_site_instance_cache_lookup_ne wd _ acc.cache acc.file u
      (h hd (List.mem_cons_self _ _))

-- Claim theorems -------------------------------------------------------------

/-- Claim C1 (code bug): the round trip fails when a previously saved
document is already in the cache file.  `save_cache` opens the file in
append mode, so saving M on top of an earlier document leaves two
concatenated top-level documents; `json.loads` then fails and `open_cache`
returns the empty mapping, not M — in general, and in particular for
M = {"k": "v"} on top of {"a": "1"}. -/
theorem open_cache_after_save_on_nonempty_file_is_empty :
    (∀ (α : Type) (M M0 : Mapping α),
      open_cache
        (some (save_cache M (save_cache M0 ([] : CacheFile (Mapping α))))) =
        []) ∧
    open_cache
        (some (save_cache [("k", "v")]
          (save_cache [("a", "1")] ([] : CacheFile (Mapping String))))) ≠
      [("k", "v")] := by
  refine ⟨fun α M M0 => rfl, ?_⟩
  decide

/-- Claim C2 (code bug): `save_cache` appends a document to the file instead
of replacing its contents, so after two writes the cache file holds two
concatenated top-level documents (and is no longer a single parseable
document). -/
theorem save_cache_appends_not_rewrites :
    (∀ (α : Type) (m0 m1 : α),
      save_cache m1 (save_cache m0 ([] : CacheFile α)) = [m0, m1]) ∧
    json_loads
        (save_cache [("k", "v")]
          (save_cache [("a", "1")] ([] : CacheFile (Mapping String)))) =
      (none : Option (Mapping String)) :=
  ⟨fun _ _ _ => rfl, rfl⟩

/-- Claim C3 (counterexample): `construct_unique_key` iterates the parameter
dict in insertion order, so the same key/value pairs inserted in a different
order yield a different key; and two different parameter mappings can
collide. -/
theorem construct_unique_key_order_and_collision_cex :
    construct_unique_key "e" [("a", "1"), ("b", "2")] ≠
      construct_unique_key "e" [("b", "2"), ("a", "1")] ∧
    construct_unique_key "e" [("a", "1_b_2")] =
      construct_unique_key "e" [("a", "1"), ("b", "2")] := by
  decide

/-- Claim C3 (amended): the key is the endpoint followed by `_k_v` for each
parameter in insertion (iteration) order — so identical endpoint and
identical ordered parameter sequence always yield the identical key, but the
key is sensitive to insertion order and is not collision-free. -/
theorem construct_unique_key_eq_base_append_suffix (baseurl : String)
    (params : List (String × String)) :
    construct_unique_key baseurl params = baseurl ++ key_suffix params := by
  induction params generalizing baseurl with
  | nil => simp [construct_unique_key, key_suffix]
  | cons p ps ih =>
    show construct_unique_key (baseurl ++ "_" ++ p.1 ++ "_" ++ p.2) ps = _
    rw [ih]
    simp [key_suffix, String.append_assoc]

/-- Claim C6: `open_cache` never raises — a missing/unreadable file or an
unparseable file content both give the empty mapping, and a parseable file
gives the deserialized mapping. -/
theorem open_cache_swallows_failures {α : Type} :
    open_cache (none : Option (CacheFile (Mapping α))) = [] ∧
    (∀ f : CacheFile (Mapping α),
      json_loads f = none → open_cache (some f) = []) ∧
    (∀ (f : CacheFile (Mapping α)) (d : Mapping α),
      json_loads f = some d → open_cache (some f) = d) := by
  refine ⟨rfl, fun f hf => ?_, fun f d hf => ?_⟩
  · simp [open_cache, hf]
  · simp [open_cache, hf]

/-- Witness for C6 at concrete inputs: a two-document file parses to the
empty mapping, a one-document file parses to its document. -/
theorem open_cache_swallows_failures_witness :
    open_cache (some ([[("a", "1")], [("b", "2")]] :
        CacheFile (Mapping String))) = [] ∧
    open_cache (some ([[("a", "1")]] : CacheFile (Mapping String))) =
      [("a", "1")] :=
  ⟨open_cache_swallows_failures.2.1 _ rfl,
   open_cache_swallows_failures.2.2 _ _ rfl⟩

/-- Claim C4: on a cache hit, the read-through fetch returns exactly the
stored payload and performs no network request — `get_nearby_places` returns
the cached response verbatim, and `get_site_instance` parses the cached page
text; neither invokes its producer. -/
theorem cache_hit_returns_stored_payload {α : Type} (apiKey : String)
    (producer : String → List (String × String) → α) (site : NationalSite)
    (cache : Mapping α) (file : CacheFile (Mapping α)) (v : α)
    (webGet : String → DetailPage) (site_url : String)
    (cacheD : Mapping DetailPage) (fileD : CacheFile (Mapping DetailPage))
    (page : DetailPage)
    (hJson : dictLookup cache
        (construct_unique_key mapquest_baseurl
          (nearby_params apiKey site.zipcode)) = some v)
    (hHtml : dictLookup cacheD site_url = some page) :
    (get_nearby_places apiKey producer site cache file).response = v ∧
    (get_nearby_places apiKey producer site cache file).fetchCalls = 0 ∧
    (get_site_instance webGet site_url cacheD fileD).site =
      site_from_page page ∧
    (get_site_instance webGet site_url cacheD fileD).fetchCalls = 0 := by
  refine ⟨?_, ?_, ?_, ?_⟩ <;>
    simp [get_nearby_places, get_site_instance, hJson, hHtml]

/-- Witness for C4: a concrete hit on both cached fetchers. -/
theorem cache_hit_returns_stored_payload_witness :
    (get_nearby_places "K" (fun _ _ => "fresh") sample_site
        [(construct_unique_key mapquest_baseurl (nearby_params "K" "49931"),
          "stored")] []).response = "stored" ∧
    (get_nearby_places "K" (fun _ _ => "fresh") sample_site
        [(construct_unique_key mapquest_baseurl (nearby_params "K" "49931"),
          "stored")] []).fetchCalls = 0 ∧
    (get_site_instance (fun _ => isle_royale_detail) "u"
        [("u", isle_royale_detail)] []).site =
      site_from_page isle_royale_detail ∧
    (get_site_instance (fun _ => isle_royale_detail) "u"
        [("u", isle_royale_detail)] []).fetchCalls = 0 :=
  cache_hit_returns_stored_payload "K" (fun _ _ => "fresh") sample_site
    _ [] "stored" (fun _ => isle_royale_detail) "u" _ [] isle_royale_detail
    (by simp [sample_site, dictLookup]) (by simp [dictLookup])

/-- Claim C5: on a cache miss, `get_nearby_places` invokes the producer
exactly once, returns the produced payload, and stores it under the computed
key, which is present in the mapping afterward. -/
theorem cache_miss_invokes_producer_once {α : Type} (apiKey : String)
    (producer : String → List (String × String) → α) (site : NationalSite)
    (cache : Mapping α) (file : CacheFile (Mapping α))
    (hMiss : dictLookup cache
        (construct_unique_key mapquest_baseurl
          (nearby_params apiKey site.zipcode)) = none) :
    (get_nearby_places apiKey producer site cache file).fetchCalls = 1 ∧
    (get_nearby_places apiKey producer site cache file).response =
      producer mapquest_baseurl (nearby_params apiKey site.zipcode) ∧
    dictLookup (get_nearby_places apiKey producer site cache file).cache
        (construct_unique_key mapquest_baseurl
          (nearby_params apiKey site.zipcode)) =
      some (producer mapquest_baseurl (nearby_params apiKey site.zipcode)) := by
  refine ⟨?_, ?_, ?_⟩ <;>
    simp [get_nearby_places, hMiss, dictLookup_insert_self]

/-- Witness for C5: a concrete miss on the empty cache. -/
theorem cache_miss_invokes_producer_once_witness :
    (get_nearby_places "K" (fun _ _ => "fresh") sample_site [] []).fetchCalls
      = 1 ∧
    (get_nearby_places "K" (fun _ _ => "fresh") sample_site [] []).response =
      (fun _ _ => "fresh") mapquest_baseurl (nearby_params "K"
        sample_site.zipcode) ∧
    dictLookup (get_nearby_places "K" (fun _ _ => "fresh") sample_site []
        []).cache
        (construct_unique_key mapquest_baseurl
          (nearby_params "K" sample_site.zipcode)) =
      some ((fun _ _ => "fresh") mapquest_baseurl
        (nearby_params "K" sample_site.zipcode)) :=
  cache_miss_invokes_producer_once "K" (fun _ _ => "fresh") sample_site [] []
    rfl

/-- Claim C7: in the nearby-places display, each of category, address and
city is replaced by its fixed placeholder exactly when it is the empty
string, non-empty values pass through unchanged, and name passes through
always (no fallback). -/
theorem display_nearby_place_fallbacks (f : PlaceFields) :
    (display_nearby_place f).1 = f.name ∧
    (f.group_sic_code_name_ext = "" →
      (display_nearby_place f).2.1 = "no category") ∧
    (f.group_sic_code_name_ext ≠ "" →
      (display_nearby_place f).2.1 = f.group_sic_code_name_ext) ∧
    (f.address = "" → (display_nearby_place f).2.2.1 = "no address") ∧
    (f.address ≠ "" → (display_nearby_place f).2.2.1 = f.address) ∧
    (f.city = "" → (display_nearby_place f).2.2.2 = "no city") ∧
    (f.city ≠ "" → (display_nearby_place f).2.2.2 = f.city) := by
  refine ⟨rfl, fun h => ?_, fun h => ?_, fun h => ?_, fun h => ?_,
    fun h => ?_, fun h => ?_⟩ <;>
    simp [display_nearby_place, h]

/-- Witness for C7: one all-empty record (name still passes through) and one
all-non-empty record. -/
theorem display_nearby_place_fallbacks_witness :
    (display_nearby_place ⟨"N", "", "", ""⟩).1 = "N" ∧
    (display_nearby_place ⟨"N", "", "", ""⟩).2.1 = "no category" ∧
    (display_nearby_place ⟨"N", "", "", ""⟩).2.2.1 = "no address" ∧
    (display_nearby_place ⟨"N", "", "", ""⟩).2.2.2 = "no city" ∧
    (display_nearby_place ⟨"", "a", "c", "g"⟩).2.1 = "g" ∧
    (display_nearby_place ⟨"", "a", "c", "g"⟩).2.2.1 = "a" ∧
    (display_nearby_place ⟨"", "a", "c", "g"⟩).2.2.2 = "c" :=
  ⟨(display_nearby_place_fallbacks ⟨"N", "", "", ""⟩).1,
   (display_nearby_place_fallbacks ⟨"N", "", "", ""⟩).2.1 rfl,
   (display_nearby_place_fallbacks ⟨"N", "", "", ""⟩).2.2.2.1 rfl,
   (display_nearby_place_fallbacks ⟨"N", "", "", ""⟩).2.2.2.2.2.1 rfl,
   (display_nearby_place_fallbacks ⟨"", "a", "c", "g"⟩).2.2.1 (by decide),
   (display_nearby_place_fallbacks ⟨"", "a", "c", "g"⟩).2.2.2.2.1 (by decide),
   (display_nearby_place_fallbacks ⟨"", "a", "c", "g"⟩).2.2.2.2.2.2
     (by decide)⟩

/-- Claim C8: on the canned state page with the single `/isle-royale/` link
and the canned Isle Royale detail page, the pipeline yields exactly one site
and its `info()` summary is `"Isle Royale (National Park): Houghton, MI
49931"`. -/
theorem isle_royale_pipeline :
    ((get_sites_for_state (fun _ => canned_state_page)
        (fun _ => isle_royale_detail) "https://www.nps.gov/state/mi/index.htm"
        [] []).sites).map NationalSite.info =
      ["Isle Royale (National Park): Houghton, MI 49931"] := by
  decide

/-- Claim C9: `get_sites_for_state` fetches the state page over the network
unconditionally — the state URL is fetched even when it is present in the
cache, and no payload is stored under the state URL — while the structurally
identical directory (`build_state_url_dict`) and detail-page
(`get_site_instance`) fetches are served from the cache on a hit. -/
theorem state_page_fetch_bypasses_cache
    (ws : String → StatePage) (wd : String → DetailPage)
    (state_url : String) (cache : Mapping DetailPage)
    (file : CacheFile (Mapping DetailPage))
    (webGet : String → DetailPage) (site_url : String)
    (cacheD : Mapping DetailPage) (fileD : CacheFile (Mapping DetailPage))
    (page : DetailPage) (wi : String → IndexPage)
    (cacheI : Mapping IndexPage) (fileI : CacheFile (Mapping IndexPage))
    (pageI : IndexPage)
    (hNotDetail : ∀ href ∈ (ws state_url).parkHrefs,
      state_url ≠ detail_site_url href)
    (hHit : dictLookup cacheD site_url = some page)
    (hHitI : dictLookup cacheI "https://www.nps.gov/index.htm" = some pageI) :
    state_url ∈ (get_sites_for_state ws wd state_url cache file).fetchedUrls ∧
    dictLookup (get_sites_for_state ws wd state_url cache file).cache
        state_url = dictLookup cache state_url ∧
    (get_site_instance webGet site_url cacheD fileD).fetchCalls = 0 ∧
    (build_state_url_dict wi cacheI fileI).fetchCalls = 0 := by
  refine ⟨?_, ?_, ?_, ?_⟩
  · exact sites_foldl_fetched_mono wd (ws state_url).parkHrefs _ state_url
      (List.mem_singleton.mpr rfl)
  · exact sites_foldl_lookup_ne wd (ws state_url).parkHrefs _ state_url
      hNotDetail
  · simp [get_site_instance, hHit]
  · simp [build_state_url_dict, hHitI]

/-- Witness for C9: a one-park state page, with the state URL itself already
present in the cache (it is still fetched) and concrete hits for the two
cached fetchers. -/
theorem state_page_fetch_bypasses_cache_witness :
    "S" ∈ (get_sites_for_state (fun _ => canned_state_page)
        (fun _ => isle_royale_detail) "S" [("S", isle_royale_detail)]
        []).fetchedUrls ∧
    dictLookup (get_sites_for_state (fun _ => canned_state_page)
        (fun _ => isle_royale_detail) "S" [("S", isle_royale_detail)]
        []).cache "S" =
      dictLookup [("S", isle_royale_detail)] "S" ∧
    (get_site_instance (fun _ => isle_royale_detail) "u"
        [("u", isle_royale_detail)] []).fetchCalls = 0 ∧
    (build_state_url_dict (fun _ => sample_index_page)
        [("https://www.nps.gov/index.htm", sample_index_page)]
        []).fetchCalls = 0 :=
  state_page_fetch_bypasses_cache (fun _ => canned_state_page)
    (fun _ => isle_royale_detail) "S" [("S", isle_royale_detail)] []
    (fun _ => isle_royale_detail) "u" [("u", isle_royale_detail)] []
    isle_royale_detail (fun _ => sample_index_page)
    [("https://www.nps.gov/index.htm", sample_index_page)] []
    sample_index_page (by decide) (by decide) (by decide)

/-- Claim C10: a cache hit leaves all state unchanged — on the hit path each
cached fetcher returns the in-memory mapping and the cache file exactly as
they were and performs no `save_cache` call. -/
theorem cache_hit_leaves_state_unchanged {α : Type} (apiKey : String)
    (producer : String → List (String × String) → α) (site : NationalSite)
    (cache : Mapping α) (file : CacheFile (Mapping α)) (v : α)
    (webGet : String → DetailPage) (site_url : String)
    (cacheD : Mapping DetailPage) (fileD : CacheFile (Mapping DetailPage))
    (page : DetailPage) (wi : String → IndexPage)
    (cacheI : Mapping IndexPage) (fileI : CacheFile (Mapping IndexPage))
    (pageI : IndexPage)
    (hJson : dictLookup cache
        (construct_unique_key mapquest_baseurl
          (nearby_params apiKey site.zipcode)) = some v)
    (hHtml : dictLookup cacheD site_url = some page)
    (hIdx : dictLookup cacheI "https://www.nps.gov/index.htm" = some pageI) :
    (get_nearby_places apiKey producer site cache file).cache = cache ∧
    (get_nearby_places apiKey producer site cache file).file = file ∧
    (get_nearby_places apiKey producer site cache file).saveCalls = 0 ∧
    (get_site_instance webGet site_url cacheD fileD).cache = cacheD ∧
    (get_site_instance webGet site_url cacheD fileD).file = fileD ∧
    (get_site_instance webGet site_url cacheD fileD).saveCalls = 0 ∧
    (build_state_url_dict wi cacheI fileI).cache = cacheI ∧
    (build_state_url_dict wi cacheI fileI).file = fileI ∧
    (build_state_url_dict wi cacheI fileI).saveCalls = 0 := by
  refine ⟨?_, ?_, ?_, ?_, ?_, ?_, ?_, ?_, ?_⟩ <;>
    simp [get_nearby_places, get_site_instance, build_state_url_dict,
      hJson, hHtml, hIdx]

/-- Witness for C10: concrete hits on all three cached fetchers. -/
theorem cache_hit_leaves_state_unchanged_witness :
    (get_nearby_places "K" (fun _ _ => "fresh") sample_site
        [(construct_unique_key mapquest_baseurl (nearby_params "K" "49931"),
          "stored")] [[("x", "y")]]).cache =
      [(construct_unique_key mapquest_baseurl (nearby_params "K" "49931"),
        "stored")] ∧
    (get_nearby_places "K" (fun _ _ => "fresh") sample_site
        [(construct_unique_key mapquest_baseurl (nearby_params "K" "49931"),
          "stored")] [[("x", "y")]]).file = [[("x", "y")]] ∧
    (get_nearby_places "K" (fun _ _ => "fresh") sample_site
        [(construct_unique_key mapquest_baseurl (nearby_params "K" "49931"),
          "stored")] [[("x", "y")]]).saveCalls = 0 ∧
    (get_site_instance (fun _ => isle_royale_detail) "w"
        [("w", isle_royale_detail)] []).cache = [("w", isle_royale_detail)] ∧
    (get_site_instance (fun _ => isle_royale_detail) "w"
        [("w", isle_royale_detail)] []).file = [] ∧
    (get_site_instance (fun _ => isle_royale_detail) "w"
        [("w", isle_royale_detail)] []).saveCalls = 0 ∧
    (build_state_url_dict (fun _ => sample_index_page)
        [("https://www.nps.gov/index.htm", sample_index_page)] []).cache =
      [("https://www.nps.gov/index.htm", sample_index_page)] ∧
    (build_state_url_dict (fun _ => sample_index_page)
        [("https://www.nps.gov/index.htm", sample_index_page)] []).file =
      [] ∧
    (build_state_url_dict (fun _ => sample_index_page)
        [("https://www.nps.gov/index.htm", sample_index_page)]
        []).saveCalls = 0 :=
  cache_hit_leaves_state_unchanged "K" (fun _ _ => "fresh") sample_site
    _ [[("x", "y")]] "stored" (fun _ => isle_royale_detail) "w"
    [("w", isle_royale_detail)] [] isle_royale_detail
    (fun _ => sample_index_page)
    [("https://www.nps.gov/index.htm", sample_index_page)] []
    sample_index_page (by simp [sample_site, dictLookup]) (by decide)
    (by decide)
